import Mathlib

/-
Verification of the Mayastor data-plane core: a shallow embedding of
src/mayastor/src/core/handle.rs (BdevHandle and its completion-callback
bridge), src/mayastor/src/grpc/mod.rs (rpc_call) and
src/mayastor/src/bdev/dev/nvme.rs (NVMe::create, NvmeCreateContext),
with theorems settling the specification claims about them.

The SPDK driver is external to the repository; each dispatch method is
therefore modelled as a pure function of the driver behaviour for that
one submission (the synchronous status the submission call returns, and
the success flag the driver later passes to the completion callback).
Every method additionally returns the list of observable events it
performs, in order, so that temporal claims (no await on the dispatch
error path, teardown ordering, bridge reclamation) are statable.
-/

/-- Errno models the platform error-number type of the external nix crate
at the module boundary: `Errno::from_i32` is modelled as carrying the raw
status code it was given. -/
structure Errno where
  code : Int
  deriving DecidableEq

/-- Boundary model of `nix::errno::Errno::from_i32`. -/
def Errno.from_i32 (i : Int) : Errno := ⟨i⟩

/-- DmaBuf models the aligned buffer `core::DmaBuf`; only its byte length
is observable through the handle contracts (`buffer.len()`). -/
structure DmaBuf where
  len : Nat
  deriving DecidableEq

/-- CoreError mirrors the variants of `core::CoreError` used by
`BdevHandle` in handle.rs: dispatch errors carry the submission status,
the offset and the length (or the opcode), completion failures carry the
offset and length (or opcode) only. -/
inductive CoreError where
  | BdevNotFound (name : String)
  | GetIoChannel (name : String)
  | WriteDispatch (source : Errno) (offset : Nat) (len : Nat)
  | WriteFailed (offset : Nat) (len : Nat)
  | ReadDispatch (source : Errno) (offset : Nat) (len : Nat)
  | ReadFailed (offset : Nat) (len : Nat)
  | ResetDispatch (source : Errno)
  | ResetFailed
  | NvmeAdminDispatch (source : Errno) (opcode : Nat)
  | NvmeAdminFailed (opcode : Nat)
  deriving DecidableEq

/-- Driver behaviour for one submission: `errno` is the synchronous
status returned by the spdk submission call (`spdk_bdev_write`,
`spdk_bdev_read`, `spdk_bdev_reset`, `spdk_bdev_nvme_admin_passthru`);
`success` is the flag the driver passes to `io_completion_cb` when the
submission was accepted (`errno = 0`). -/
structure Driver where
  errno : Int
  success : Bool
  deriving DecidableEq

/-- Observable events of one dispatch call, in program order.
`submitted`: the submission call was made with the boxed oneshot sender
handed to the driver as the opaque context (`cb_arg(s)`).
`awaited`: the caller suspended on `r.await`.
`callbackFired`: the driver invoked `io_completion_cb` with the flag.
`bridgeReclaimed`: the boxed sender was reclaimed (`Box::from_raw`).
`resolved`: the sender delivered the flag to the receiver. -/
inductive IoEvent where
  | submitted
  | awaited
  | callbackFired (success : Bool)
  | bridgeReclaimed
  | resolved (success : Bool)
  deriving DecidableEq

/-- Embedding of `BdevHandle::write_at` (handle.rs lines 112-146): submit
the write; on a non-zero status return `WriteDispatch` at once; otherwise
await the completion bridge and map the flag to `Ok(buffer.len())` or
`WriteFailed`. The event list records that the dispatch error path makes
the submission call and nothing else. -/
def BdevHandle.write_at (offset : Nat) (buffer : DmaBuf) (drv : Driver) :
    List IoEvent × Except CoreError Nat :=
  if drv.errno ≠ 0 then
    ([IoEvent.submitted],
      Except.error (CoreError.WriteDispatch (Errno.from_i32 drv.errno) offset buffer.len))
  else
    ([IoEvent.submitted, IoEvent.awaited, IoEvent.callbackFired drv.success,
      IoEvent.bridgeReclaimed, IoEvent.resolved drv.success],
      if drv.success then Except.ok buffer.len
      else Except.error (CoreError.WriteFailed offset buffer.len))

/-- Embedding of `BdevHandle::read_at` (handle.rs lines 149-183),
symmetric to `write_at`. -/
def BdevHandle.read_at (offset : Nat) (buffer : DmaBuf) (drv : Driver) :
    List IoEvent × Except CoreError Nat :=
  if drv.errno ≠ 0 then
    ([IoEvent.submitted],
      Except.error (CoreError.ReadDispatch (Errno.from_i32 drv.errno) offset buffer.len))
  else
    ([IoEvent.submitted, IoEvent.awaited, IoEvent.callbackFired drv.success,
      IoEvent.bridgeReclaimed, IoEvent.resolved drv.success],
      if drv.success then Except.ok buffer.len
      else Except.error (CoreError.ReadFailed offset buffer.len))

/-- Embedding of `BdevHandle::reset` (handle.rs lines 185-207). The
source declares the success type `usize` and returns `Ok(0)`. -/
def BdevHandle.reset (drv : Driver) : List IoEvent × Except CoreError Nat :=
  if drv.errno ≠ 0 then
    ([IoEvent.submitted],
      Except.error (CoreError.ResetDispatch (Errno.from_i32 drv.errno)))
  else
    ([IoEvent.submitted, IoEvent.awaited, IoEvent.callbackFired drv.success,
      IoEvent.bridgeReclaimed, IoEvent.resolved drv.success],
      if drv.success then Except.ok 0
      else Except.error CoreError.ResetFailed)

/-- NvmeCmd models the fields of `spdk_nvme_cmd` that handle.rs writes:
the opcode and the two command dwords cdw10/cdw11. -/
structure NvmeCmd where
  opc : Nat
  cdw10 : Nat
  cdw11 : Nat
  deriving DecidableEq

/-- Default-constructed command (`spdk_nvme_cmd::default()`). -/
def NvmeCmd.default : NvmeCmd := ⟨0, 0, 0⟩

/-- Embedding of `BdevHandle::nvme_admin` (handle.rs lines 237-269): the
source declares the success type `usize` and returns `Ok(0)`. -/
def BdevHandle.nvme_admin (cmd : NvmeCmd) (drv : Driver) :
    List IoEvent × Except CoreError Nat :=
  if drv.errno ≠ 0 then
    ([IoEvent.submitted],
      Except.error (CoreError.NvmeAdminDispatch (Errno.from_i32 drv.errno) cmd.opc))
  else
    ([IoEvent.submitted, IoEvent.awaited, IoEvent.callbackFired drv.success,
      IoEvent.bridgeReclaimed, IoEvent.resolved drv.success],
      if drv.success then Except.ok 0
      else Except.error (CoreError.NvmeAdminFailed cmd.opc))

/-- Embedding of `BdevHandle::nvme_admin_custom` (handle.rs lines
227-234): build a default command with the given opcode and delegate to
`nvme_admin`. Returns the command it built together with the result. -/
def BdevHandle.nvme_admin_custom (opcode : Nat) (drv : Driver) :
    NvmeCmd × List IoEvent × Except CoreError Nat :=
  let cmd : NvmeCmd := { NvmeCmd.default with opc := opcode }
  (cmd, BdevHandle.nvme_admin cmd drv)

/-- Modelled from the spec: the vendor-specific admin opcode
`nvme_admin_opc::CREATE_SNAPSHOT` (nexus_io.rs is not part of the
excerpt); its concrete value is irrelevant to the claims. -/
def nvme_admin_opc.CREATE_SNAPSHOT : Nat := 0xc0

/-- Embedding of `BdevHandle::create_snapshot` (handle.rs lines
211-224): `now` is the clock reading `as_secs()` (a u64); the command
gets `cdw10 = now as u32` and `cdw11 = (now >> 32) as u32`, is sent via
`nvme_admin`, and on success the call returns `now`. Returns the command
it issued together with the events and the result. -/
def BdevHandle.create_snapshot (now : Nat) (drv : Driver) :
    NvmeCmd × List IoEvent × Except CoreError Nat :=
  let cmd : NvmeCmd :=
    { opc := nvme_admin_opc.CREATE_SNAPSHOT
      cdw10 := now % 2 ^ 32
      cdw11 := (now / 2 ^ 32) % 2 ^ 32 }
  match BdevHandle.nvme_admin cmd drv with
  | (tr, Except.ok _) => (cmd, tr, Except.ok now)
  | (tr, Except.error e) => (cmd, tr, Except.error e)

/-- C1: for every `write_at` or `read_at` call in which the driver
submission call returns a non-zero status, the call returns the
dispatch-class error (`WriteDispatch` / `ReadDispatch`) carrying exactly
that status code, the offset given by the caller and the buffer length,
and the call performs only the submission: the completion bridge is
never awaited on this path. -/
theorem dispatch_error_no_await (offset : Nat) (buffer : DmaBuf) (drv : Driver)
    (h : drv.errno ≠ 0) :
    BdevHandle.write_at offset buffer drv =
      ([IoEvent.submitted],
        Except.error (CoreError.WriteDispatch (Errno.from_i32 drv.errno) offset buffer.len)) ∧
    BdevHandle.read_at offset buffer drv =
      ([IoEvent.submitted],
        Except.error (CoreError.ReadDispatch (Errno.from_i32 drv.errno) offset buffer.len)) ∧
    (Errno.from_i32 drv.errno).code = drv.errno ∧
    IoEvent.awaited ∉ (BdevHandle.write_at offset buffer drv).1 ∧
    IoEvent.awaited ∉ (BdevHandle.read_at offset buffer drv).1 := by
  refine ⟨?_, ?_, rfl, ?_, ?_⟩ <;>
    simp [BdevHandle.write_at, BdevHandle.read_at, h]

/-- Witness for C1 at the concrete scenario of the spec: status -5,
offset 0, a 4096-byte buffer. -/
theorem dispatch_error_no_await_witness :
    BdevHandle.write_at 0 ⟨4096⟩ ⟨-5, true⟩ =
      ([IoEvent.submitted],
        Except.error (CoreError.WriteDispatch (Errno.from_i32 (-5)) 0 4096)) ∧
    BdevHandle.read_at 0 ⟨4096⟩ ⟨-5, true⟩ =
      ([IoEvent.submitted],
        Except.error (CoreError.ReadDispatch (Errno.from_i32 (-5)) 0 4096)) ∧
    (Errno.from_i32 (-5)).code = -5 ∧
    IoEvent.awaited ∉ (BdevHandle.write_at 0 ⟨4096⟩ ⟨-5, true⟩).1 ∧
    IoEvent.awaited ∉ (BdevHandle.read_at 0 ⟨4096⟩ ⟨-5, true⟩).1 :=
  dispatch_error_no_await 0 ⟨4096⟩ ⟨-5, true⟩ (by decide)

/-- C2: for every `write_at` call whose submission is accepted, a
completion with flag `true` yields `Ok(buffer.len())` and a completion
with flag `false` yields `WriteFailed` with the same offset and
length. -/
theorem write_at_completion (offset : Nat) (buffer : DmaBuf) (drv : Driver)
    (h : drv.errno = 0) :
    (drv.success = true →
      (BdevHandle.write_at offset buffer drv).2 = Except.ok buffer.len) ∧
    (drv.success = false →
      (BdevHandle.write_at offset buffer drv).2 =
        Except.error (CoreError.WriteFailed offset buffer.len)) := by
  constructor <;> intro hs <;> simp [BdevHandle.write_at, h, hs]

/-- Witness for C2 at the concrete scenario of the spec: a successful
4096-byte write at offset 0 returns byte count 4096, and a reported
failure returns `WriteFailed`. -/
theorem write_at_completion_witness :
    (BdevHandle.write_at 0 ⟨4096⟩ ⟨0, true⟩).2 = Except.ok 4096 ∧
    (BdevHandle.write_at 0 ⟨4096⟩ ⟨0, false⟩).2 =
      Except.error (CoreError.WriteFailed 0 4096) :=
  ⟨(write_at_completion 0 ⟨4096⟩ ⟨0, true⟩ rfl).1 rfl,
   (write_at_completion 0 ⟨4096⟩ ⟨0, false⟩ rfl).2 rfl⟩

/-- C3: `create_snapshot` called when the clock reads `T` whole seconds
since epoch (a u64, hence `T < 2 ^ 64`) issues an admin command whose
cdw10 equals `T mod 2 ^ 32` and whose cdw11 equals `T div 2 ^ 32`, and
on success (submission accepted, completion flag true) returns exactly
`T`. -/
theorem create_snapshot_encoding (T : Nat) (drv : Driver)
    (hT : T < 2 ^ 64) (h0 : drv.errno = 0) (hs : drv.success = true) :
    (BdevHandle.create_snapshot T drv).1.cdw10 = T % 2 ^ 32 ∧
    (BdevHandle.create_snapshot T drv).1.cdw11 = T / 2 ^ 32 ∧
    (BdevHandle.create_snapshot T drv).2.2 = Except.ok T := by
  have hdiv : T / 2 ^ 32 < 2 ^ 32 := by
    have h2 : (0 : Nat) < 2 ^ 32 := by positivity
    rw [Nat.div_lt_iff_lt_mul h2]
    calc T < 2 ^ 64 := hT
    _ = 2 ^ 32 * 2 ^ 32 := by norm_num
  have hmod : (T / 2 ^ 32) % 2 ^ 32 = T / 2 ^ 32 := Nat.mod_eq_of_lt hdiv
  refine ⟨?_, ?_, ?_⟩ <;>
    simp [BdevHandle.create_snapshot, BdevHandle.nvme_admin, h0, hs, hmod] <;>
    omega

/-- Witness for C3 at T = 5000000000 (which exceeds 2 ^ 32, so both
dwords are exercised) with an accepting driver. -/
theorem create_snapshot_encoding_witness :
    (BdevHandle.create_snapshot 5000000000 ⟨0, true⟩).1.cdw10 = 5000000000 % 2 ^ 32 ∧
    (BdevHandle.create_snapshot 5000000000 ⟨0, true⟩).1.cdw11 = 5000000000 / 2 ^ 32 ∧
    (BdevHandle.create_snapshot 5000000000 ⟨0, true⟩).2.2 = Except.ok 5000000000 :=
  create_snapshot_encoding 5000000000 ⟨0, true⟩ (by norm_num) rfl rfl

/-- C4 counterexample: at the concrete input of a write at offset 0 with
a 4096-byte buffer where the driver rejects submission with status -5,
the call performs only the submission and returns the dispatch error: no
`bridgeReclaimed` event occurs before returning, so the heap-boxed
sender handed to the driver is NOT reclaimed by the caller, contrary to
the claim. The same holds for `nvme_admin`. -/
theorem dispatch_error_leaks_bridge_cex :
    (BdevHandle.write_at 0 ⟨4096⟩ ⟨-5, true⟩).1 = [IoEvent.submitted] ∧
    IoEvent.bridgeReclaimed ∉ (BdevHandle.write_at 0 ⟨4096⟩ ⟨-5, true⟩).1 ∧
    (BdevHandle.nvme_admin ⟨6, 0, 0⟩ ⟨-5, true⟩).1 = [IoEvent.submitted] ∧
    IoEvent.bridgeReclaimed ∉ (BdevHandle.nvme_admin ⟨6, 0, 0⟩ ⟨-5, true⟩).1 := by
  decide

/-- C4 amended: for every dispatch call whose submission returns a
non-zero status, the caller returns the dispatch error immediately and
never awaits, but it does NOT reclaim the heap-boxed oneshot sender
that was handed to the driver as the opaque context: the only event on
this path is the submission itself, so the boxed completion context
remains outstanding (it is leaked, since no callback will fire for a
rejected submission). -/
theorem dispatch_error_bridge_not_reclaimed (offset : Nat) (buffer : DmaBuf)
    (cmd : NvmeCmd) (drv : Driver) (h : drv.errno ≠ 0) :
    (BdevHandle.write_at offset buffer drv).1 = [IoEvent.submitted] ∧
    (BdevHandle.read_at offset buffer drv).1 = [IoEvent.submitted] ∧
    (BdevHandle.reset drv).1 = [IoEvent.submitted] ∧
    (BdevHandle.nvme_admin cmd drv).1 = [IoEvent.submitted] ∧
    IoEvent.bridgeReclaimed ∉ (BdevHandle.write_at offset buffer drv).1 ∧
    IoEvent.bridgeReclaimed ∉ (BdevHandle.nvme_admin cmd drv).1 := by
  refine ⟨?_, ?_, ?_, ?_, ?_, ?_⟩ <;>
    simp [BdevHandle.write_at, BdevHandle.read_at, BdevHandle.reset,
      BdevHandle.nvme_admin, h]

/-- Witness for the amended C4 at status -5. -/
theorem dispatch_error_bridge_not_reclaimed_witness :
    (BdevHandle.write_at 7 ⟨512⟩ ⟨-5, false⟩).1 = [IoEvent.submitted] ∧
    (BdevHandle.read_at 7 ⟨512⟩ ⟨-5, false⟩).1 = [IoEvent.submitted] ∧
    (BdevHandle.reset ⟨-5, false⟩).1 = [IoEvent.submitted] ∧
    (BdevHandle.nvme_admin ⟨6, 0, 0⟩ ⟨-5, false⟩).1 = [IoEvent.submitted] ∧
    IoEvent.bridgeReclaimed ∉ (BdevHandle.write_at 7 ⟨512⟩ ⟨-5, false⟩).1 ∧
    IoEvent.bridgeReclaimed ∉ (BdevHandle.nvme_admin ⟨6, 0, 0⟩ ⟨-5, false⟩).1 :=
  dispatch_error_bridge_not_reclaimed 7 ⟨512⟩ ⟨6, 0, 0⟩ ⟨-5, false⟩ (by decide)

/-- Teardown events of a `BdevHandle`: releasing the IoChannel
(`ManuallyDrop::drop(&mut self.channel)`) and releasing the Descriptor
reference (`ManuallyDrop::drop(&mut self.desc)`). -/
inductive TeardownEvent where
  | releaseChannel
  | releaseDescriptor
  deriving DecidableEq, BEq

/-- Embedding of `impl Drop for BdevHandle` (handle.rs lines 272-281):
the channel is dropped, then the descriptor, in that fixed order. -/
def BdevHandle.dropHandle : List TeardownEvent :=
  [TeardownEvent.releaseChannel, TeardownEvent.releaseDescriptor]

/-- Embedding of `BdevHandle::close` (handle.rs lines 71-73): it is
exactly `drop(self)`, so it performs the same teardown sequence. -/
def BdevHandle.close : List TeardownEvent := BdevHandle.dropHandle

/-- C5: on every exit path (explicit `close` and implicit destruction)
the teardown trace releases the channel first and the descriptor last,
each exactly once: the descriptor is never released while the channel is
still alive. -/
theorem teardown_channel_before_descriptor :
    BdevHandle.close = BdevHandle.dropHandle ∧
    BdevHandle.dropHandle.head? = some TeardownEvent.releaseChannel ∧
    BdevHandle.dropHandle.getLast? = some TeardownEvent.releaseDescriptor ∧
    BdevHandle.dropHandle.count TeardownEvent.releaseChannel = 1 ∧
    BdevHandle.dropHandle.count TeardownEvent.releaseDescriptor = 1 := by
  decide

/-- Nat and Unit are different types (Nat has two distinct elements). -/
theorem nat_ne_unit : Nat ≠ Unit := by
  intro h
  have h01 : (0 : Nat) = 1 :=
    (Equiv.cast h).injective (Subsingleton.elim _ _)
  exact absurd h01 (by decide)

/-- C6 counterexample: with an accepting driver and a successful
completion, `reset` returns `Ok 0` — the success value is the number 0
in the byte-count type `usize` (modelled as Nat), not the unit value:
the success type of `reset` and `nvme_admin` in the source is `usize`,
and Nat is not Unit. -/
theorem reset_admin_returns_zero_cex :
    (BdevHandle.reset ⟨0, true⟩).2 = Except.ok 0 ∧
    (BdevHandle.nvme_admin ⟨6, 0, 0⟩ ⟨0, true⟩).2 = Except.ok 0 ∧
    Nat ≠ Unit :=
  ⟨rfl, rfl, nat_ne_unit⟩

/-- C6 amended: for every `reset`, `nvme_admin` or `nvme_admin_custom`
call whose completion resolves with flag true, the call returns `Ok 0`
— a zero of the byte-count type `usize` (the declared success type in
the source), not the unit value. -/
theorem reset_admin_success_value (cmd : NvmeCmd) (opcode : Nat) (drv : Driver)
    (h0 : drv.errno = 0) (hs : drv.success = true) :
    (BdevHandle.reset drv).2 = Except.ok 0 ∧
    (BdevHandle.nvme_admin cmd drv).2 = Except.ok 0 ∧
    (BdevHandle.nvme_admin_custom opcode drv).2.2 = Except.ok 0 := by
  refine ⟨?_, ?_, ?_⟩ <;>
    simp [BdevHandle.reset, BdevHandle.nvme_admin,
      BdevHandle.nvme_admin_custom, h0, hs]

/-- Witness for the amended C6 with an accepting driver. -/
theorem reset_admin_success_value_witness :
    (BdevHandle.reset ⟨0, true⟩).2 = Except.ok 0 ∧
    (BdevHandle.nvme_admin ⟨6, 0, 0⟩ ⟨0, true⟩).2 = Except.ok 0 ∧
    (BdevHandle.nvme_admin_custom 192 ⟨0, true⟩).2.2 = Except.ok 0 :=
  reset_admin_success_value ⟨6, 0, 0⟩ 192 ⟨0, true⟩ rfl rfl

/-- FutureModel represents a future at the scheduler boundary by the
number of event-loop polls it needs before it completes and the value it
then yields. -/
structure FutureModel (α : Type) where
  polls : Nat
  value : α

/-- Modelled from the spec: the distinguished first/management worker of
the process-wide core enumeration (`Cores::first`; core/reactor code is
not part of the excerpt). -/
def Cores.first : Nat := 0

/-- Modelled from the spec: `Reactor::block_on` drives the event loop,
repeatedly polling, until the supplied future completes, then returns
its result (the source wraps it in `Option`, unwrapped by the caller).
The poll trace is returned so that loop progress is observable. -/
def Reactor.block_on {α : Type} (f : FutureModel α) : List Unit × Option α :=
  (List.replicate f.polls (), some f.value)

/-- Outcome of `rpc_call`: a protocol response, a protocol status error,
a violated assertion (programming-contract violation), or a panic of the
`unwrap` on the blocked-on result. -/
inductive RpcOutcome (σ α : Type) where
  | response (a : α)
  | status (e : σ)
  | assertionFailure
  | panicked
  deriving DecidableEq

/-- Embedding of `rpc_call` (grpc/mod.rs lines 55-67): assert that the
current core is the first (management) core, then block on the future
while polling the reactor, unwrap, and map the result into a protocol
response via `A::from` or into a status via `Into<Status>`. `current`
models `Cores::current()`. -/
def rpc_call {L I A σ : Type} (current : Nat) (intoStatus : L → σ)
    (conv : I → A) (future : FutureModel (Except L I)) :
    List Unit × RpcOutcome σ A :=
  if current = Cores.first then
    match Reactor.block_on future with
    | (tr, some (Except.ok i)) => (tr, RpcOutcome.response (conv i))
    | (tr, some (Except.error e)) => (tr, RpcOutcome.status (intoStatus e))
    | (tr, none) => (tr, RpcOutcome.panicked)
  else ([], RpcOutcome.assertionFailure)

/-- C7: `rpc_call` requires the calling worker to be the distinguished
first/management worker. From that worker the assertion passes, the
event loop is driven (one poll event per poll the future needs) until
the future completes, and its result is returned, mapped to a response
or a status; from any other worker the call is an assertion failure and
nothing is polled. -/
theorem rpc_call_management_only {L I A σ : Type} (current : Nat)
    (intoStatus : L → σ) (conv : I → A) (future : FutureModel (Except L I)) :
    (current = Cores.first →
      rpc_call current intoStatus conv future =
        (List.replicate future.polls (),
          match future.value with
          | Except.ok i => RpcOutcome.response (conv i)
          | Except.error e => RpcOutcome.status (intoStatus e))) ∧
    (current ≠ Cores.first →
      rpc_call current intoStatus conv future =
        ([], RpcOutcome.assertionFailure)) := by
  constructor <;> intro h <;>
    simp [rpc_call, Reactor.block_on, h] <;>
    cases future.value <;> rfl

/-- Witness for C7: from core 0 a future needing three polls completes
with its value returned as a response; from core 1 the call is an
assertion failure. -/
theorem rpc_call_management_only_witness :
    rpc_call 0 (fun e : Nat => e) (fun i : Nat => i) ⟨3, Except.ok 7⟩ =
      (List.replicate 3 (), RpcOutcome.response 7) ∧
    rpc_call 1 (fun e : Nat => e) (fun i : Nat => i) ⟨3, Except.ok 7⟩ =
      ([], RpcOutcome.assertionFailure) :=
  ⟨(rpc_call_management_only 0 (fun e => e) (fun i => i) ⟨3, Except.ok 7⟩).1 rfl,
   (rpc_call_management_only 1 (fun e => e) (fun i => i) ⟨3, Except.ok 7⟩).2 (by decide)⟩

/-- NexusBdevError mirrors the variants of `nexus_uri::NexusBdevError`
used by `NVMe::create` in nvme.rs. -/
inductive NexusBdevError where
  | BdevExists (name : String)
  | InvalidParams (name : String) (source : Errno)
  | CancelBdev (name : String)
  | CreateBdev (name : String) (source : Errno)
  deriving DecidableEq

/-- NVMe mirrors the `NVMe` struct of nvme.rs: the name of the bdev that
should be created. -/
structure NVMe where
  name : String
  deriving DecidableEq

/-- Observable events of `NVMe::create`, in program order: the
lookup-by-name check, construction of the driver create context
(`NvmeCreateContext::new`), the attach submission
(`spdk_bdev_nvme_create`), and awaiting the create callback. -/
inductive CreateEvent where
  | lookupPerformed
  | contextConstructed
  | attachSubmitted
  | awaitedCompletion
  deriving DecidableEq

/-- Driver behaviour for one attach request: the synchronous status of
`spdk_bdev_nvme_create`, the errno the create callback later delivers,
and the bdev name the driver writes into `names[0]`. -/
structure CreateDriver where
  submitErrno : Int
  callbackErrno : Int
  createdName : String
  deriving DecidableEq

/-- Embedding of `NVMe::create` (nvme.rs lines 57-114). `bdevExists`
models the result of `Bdev::lookup_by_name(&self.name).is_some()`: when
a bdev with the requested name exists the call returns `BdevExists` at
once, before constructing the create context or submitting the attach.
Otherwise the context is built, the attach submitted (`InvalidParams` on
a non-zero synchronous status), the callback awaited (`CreateBdev` on a
callback errno), and on success the driver-reported name returned. -/
def NVMe.create (nvme : NVMe) (bdevExists : Bool) (drv : CreateDriver) :
    List CreateEvent × Except NexusBdevError String :=
  if bdevExists then
    ([CreateEvent.lookupPerformed],
      Except.error (NexusBdevError.BdevExists nvme.name))
  else if drv.submitErrno ≠ 0 then
    ([CreateEvent.lookupPerformed, CreateEvent.contextConstructed,
      CreateEvent.attachSubmitted],
      Except.error (NexusBdevError.InvalidParams nvme.name
        (Errno.from_i32 drv.submitErrno)))
  else if drv.callbackErrno ≠ 0 then
    ([CreateEvent.lookupPerformed, CreateEvent.contextConstructed,
      CreateEvent.attachSubmitted, CreateEvent.awaitedCompletion],
      Except.error (NexusBdevError.CreateBdev nvme.name
        (Errno.from_i32 drv.callbackErrno)))
  else
    ([CreateEvent.lookupPerformed, CreateEvent.contextConstructed,
      CreateEvent.attachSubmitted, CreateEvent.awaitedCompletion],
      Except.ok drv.createdName)

/-- C9: for every `NVMe::create` call where a bdev with the requested
name already exists, the call returns `BdevExists` carrying that name,
and it returns before constructing any driver context or submitting an
attach request: the only event on this path is the lookup itself. -/
theorem nvme_create_exists_early_return (nvme : NVMe) (drv : CreateDriver) :
    NVMe.create nvme true drv =
      ([CreateEvent.lookupPerformed],
        Except.error (NexusBdevError.BdevExists nvme.name)) ∧
    CreateEvent.contextConstructed ∉ (NVMe.create nvme true drv).1 ∧
    CreateEvent.attachSubmitted ∉ (NVMe.create nvme true drv).1 := by
  refine ⟨rfl, ?_, ?_⟩ <;> simp [NVMe.create]

/-- Maximum transport-address length of the fixed-capacity `traddr`
field of `spdk_nvme_transport_id` at the spdk boundary (the field is a
char array of SPDK_NVMF_TRADDR_MAX_LEN + 1 bytes). -/
def SPDK_NVMF_TRADDR_MAX_LEN : Nat := 256

/-- Value of the `SPDK_NVME_TRANSPORT_PCIE` transport-type constant at
the spdk boundary. -/
def SPDK_NVME_TRANSPORT_PCIE : Nat := 256

/-- SpdkNvmeTransportId models `spdk_nvme_transport_id`: the transport
address is modelled as raw memory, a byte for every offset from the
start of the `traddr` field (also beyond its fixed capacity, so that an
unchecked copy past the end is representable), plus the transport
type. -/
structure SpdkNvmeTransportId where
  traddr : Nat → Nat
  trtype : Nat

/-- Default-constructed transport id: zeroed memory
(`spdk_nvme_transport_id::default()`). -/
def SpdkNvmeTransportId.default : SpdkNvmeTransportId :=
  { traddr := fun _ => 0, trtype := 0 }

/-- Byte sequence of a UTF-8 string, as `str::as_ptr` and `str::len`
expose it: the concatenated UTF-8 encodings of its characters. -/
def strBytes (s : String) : List Nat :=
  (s.data.flatMap String.utf8EncodeChar).map (fun b => b.toNat)

/-- NvmeCreateContext mirrors the struct of nvme.rs (the host id is
default-initialized and never written, so it is omitted). -/
structure NvmeCreateContext where
  trid : SpdkNvmeTransportId
  prchk_flags : Nat
  count : Nat

/-- Embedding of `NvmeCreateContext::new` (nvme.rs lines 132-155): a
default transport id whose `traddr` field receives, via an unchecked
`copy_nonoverlapping`, exactly `name.len()` bytes of the name — every
byte of the name is written whatever its length, with no validation or
truncation against the field capacity — and whose transport type is set
to PCIE. -/
def NvmeCreateContext.new (nvme : NVMe) : NvmeCreateContext :=
  let bytes := strBytes nvme.name
  { trid :=
      { traddr := fun i =>
          if i < bytes.length then bytes.getD i 0
          else SpdkNvmeTransportId.default.traddr i
        trtype := SPDK_NVME_TRANSPORT_PCIE }
    prchk_flags := 0
    count := 1 }

/-- C10: for every NVMe object whose name fits the fixed-capacity
`traddr` field, the created transport id starts with exactly the bytes
of the name and its transport type is PCIE; and unconditionally — for
names of any length, with no validation, truncation or error — the copy
writes every byte of the name into the field. -/
theorem nvme_context_traddr (nvme : NVMe)
    (hfit : (strBytes nvme.name).length ≤ SPDK_NVMF_TRADDR_MAX_LEN + 1) :
    (∀ i, i < (strBytes nvme.name).length →
      (NvmeCreateContext.new nvme).trid.traddr i = (strBytes nvme.name).getD i 0) ∧
    (NvmeCreateContext.new nvme).trid.trtype = SPDK_NVME_TRANSPORT_PCIE ∧
    (∀ other : NVMe, ∀ i, i < (strBytes other.name).length →
      (NvmeCreateContext.new other).trid.traddr i = (strBytes other.name).getD i 0) := by
  refine ⟨?_, rfl, ?_⟩
  · intro i hi
    simp [NvmeCreateContext.new, hi]
  · intro other i hi
    simp [NvmeCreateContext.new, hi]

/-- Witness for C10 at the name nvme0 (5 bytes, within capacity): the
first copied byte is 110, the code of the letter n, and the transport
type is PCIE. -/
theorem nvme_context_traddr_witness :
    (NvmeCreateContext.new ⟨"nvme0"⟩).trid.trtype = SPDK_NVME_TRANSPORT_PCIE ∧
    (NvmeCreateContext.new ⟨"nvme0"⟩).trid.traddr 0 = 110 := by
  have h := nvme_context_traddr ⟨"nvme0"⟩ (by decide)
  refine ⟨h.2.1, ?_⟩
  have h0 := h.1 0 (by decide)
  simpa using h0

/-- BridgeState is the global state of the completion-bridge protocol:
`nextCtx` is the allocator of opaque context pointers (heap allocation
yields an address distinct from every live one, modelled by a counter);
`pending` lists the contexts of in-flight operations, that is boxed
senders handed to the driver and not yet reclaimed; `resolved` records,
in order, each context reclaimed by `io_completion_cb` together with the
success flag it delivered. -/
structure BridgeState where
  nextCtx : Nat
  pending : List Nat
  resolved : List (Nat × Bool)
  deriving DecidableEq

/-- BridgeStep: a dispatch call whose submission is accepted hands a
fresh boxed sender to the driver, and the driver later invokes
`io_completion_cb` with the context of some in-flight operation and the
success flag. -/
inductive BridgeStep where
  | submit
  | complete (ctx : Nat) (success : Bool)
  deriving DecidableEq

/-- Initial bridge state: nothing in flight, nothing resolved. -/
def initBridge : BridgeState := ⟨0, [], []⟩

/-- One step of the completion-bridge protocol. `submit` allocates a
fresh context and hands it to the driver (`cb_arg(s)` after an accepted
submission). `complete ctx ok` is `io_completion_cb` (handle.rs lines
94-108): it reclaims the boxed sender for `ctx` (`Box::from_raw`),
releases the driver completion record and resolves that one bridge with
the flag; it is only invocable with the context of an in-flight
operation, which the driver holds exactly until it fires the callback
for it, so a second invocation with the same context is rejected. -/
def bridgeStep (st : BridgeState) : BridgeStep → Option BridgeState
  | BridgeStep.submit =>
      some ⟨st.nextCtx + 1, st.nextCtx :: st.pending, st.resolved⟩
  | BridgeStep.complete ctx ok =>
      if ctx ∈ st.pending then
        some ⟨st.nextCtx, st.pending.erase ctx, st.resolved ++ [(ctx, ok)]⟩
      else none

/-- Run of a sequence of bridge steps from a state; `none` when some
step violated the driver contract. -/
def runBridge : BridgeState → List BridgeStep → Option BridgeState
  | st, [] => some st
  | st, s :: rest =>
      match bridgeStep st s with
      | some st2 => runBridge st2 rest
      | none => none

/-- Invariant of the bridge protocol: in-flight contexts are pairwise
distinct and below the allocator counter, no context is resolved twice,
resolved contexts are below the counter, and no context is both in
flight and resolved. -/
def BridgeInv (st : BridgeState) : Prop :=
  st.pending.Nodup ∧
  (st.resolved.map Prod.fst).Nodup ∧
  (∀ c ∈ st.pending, c < st.nextCtx) ∧
  (∀ c ∈ st.resolved.map Prod.fst, c < st.nextCtx) ∧
  st.pending.Disjoint (st.resolved.map Prod.fst)

/-- Each completion callback resolves exactly one pending bridge: after
it runs, its context is recorded as resolved with its flag and is no
longer in flight. -/
def completeResolvesOnce (st : BridgeState) : Prop :=
  ∀ ctx ok st2, bridgeStep st (BridgeStep.complete ctx ok) = some st2 →
    (ctx, ok) ∈ st2.resolved ∧ ctx ∉ st2.pending

/-- A single protocol step preserves the bridge invariant. -/
theorem bridgeStep_inv {st st2 : BridgeState} {s : BridgeStep}
    (hinv : BridgeInv st) (h : bridgeStep st s = some st2) : BridgeInv st2 := by
  obtain ⟨hnodup, hrnodup, hbound, hrbound, hdisj⟩ := hinv
  cases s with
  | submit =>
      simp only [bridgeStep, Option.some.injEq] at h
      subst h
      refine ⟨?_, hrnodup, ?_, ?_, ?_⟩
      · exact List.nodup_cons.mpr ⟨fun hmem => lt_irrefl _ (hbound _ hmem), hnodup⟩
      · intro c hc
        rcases List.mem_cons.mp hc with hc | hc
        · exact hc ▸ Nat.lt_succ_self st.nextCtx
        · exact Nat.lt_succ_of_lt (hbound c hc)
      · intro c hc
        exact Nat.lt_succ_of_lt (hrbound c hc)
      · intro c hc hr
        rcases List.mem_cons.mp hc with hc | hc
        · subst hc
          exact lt_irrefl _ (hrbound _ hr)
        · exact hdisj hc hr
  | complete ctx ok =>
      simp only [bridgeStep] at h
      by_cases hmem : ctx ∈ st.pending
      · rw [if_pos hmem] at h
        simp only [Option.some.injEq] at h
        subst h
        have hctx_not_res : ctx ∉ st.resolved.map Prod.fst := fun hr => hdisj hmem hr
        refine ⟨hnodup.erase ctx, ?_, ?_, ?_, ?_⟩
        · rw [List.map_append]
          exact List.Nodup.append hrnodup (List.nodup_singleton ctx)
            (fun a ha hb => hctx_not_res (by simpa [List.mem_singleton.mp hb] using ha))
        · intro c hc
          exact hbound c (List.mem_of_mem_erase hc)
        · intro c hc
          rw [List.map_append] at hc
          rcases List.mem_append.mp hc with hc | hc
          · exact hrbound c hc
          · simpa [List.mem_singleton.mp hc] using hbound ctx hmem
        · intro c hc hr
          have hc2 := (List.Nodup.mem_erase_iff hnodup).mp hc
          rw [List.map_append] at hr
          rcases List.mem_append.mp hr with hr | hr
          · exact hdisj hc2.2 hr
          · exact hc2.1 (List.mem_singleton.mp hr)
      · rw [if_neg hmem] at h
        exact absurd h (by simp)

/-- Running any step sequence preserves the bridge invariant. -/
theorem runBridge_inv (steps : List BridgeStep) :
    ∀ st st2 : BridgeState, BridgeInv st → runBridge st steps = some st2 →
      BridgeInv st2 := by
  induction steps with
  | nil =>
      intro st st2 hinv h
      simp only [runBridge, Option.some.injEq] at h
      exact h ▸ hinv
  | cons s rest ih =>
      intro st st2 hinv h
      simp only [runBridge] at h
      cases hstep : bridgeStep st s with
      | none => rw [hstep] at h; exact absurd h (by simp)
      | some stmid =>
          rw [hstep] at h
          exact ih stmid st2 (bridgeStep_inv hinv hstep) h

/-- The initial bridge state satisfies the invariant. -/
theorem initBridge_inv : BridgeInv initBridge := by
  refine ⟨List.nodup_nil, List.nodup_nil, ?_, ?_, ?_⟩ <;>
    intro c hc <;> simp [initBridge] at hc

/-- C8: in every reachable state of the completion-bridge protocol —
any run in which the driver fires the completion callback once per
accepted submission, with the context it was handed — the in-flight
context pointers are pairwise distinct (no two operations share a
bridge, no context is reused while in flight), no bridge is resolved
twice, no context is simultaneously in flight and resolved, and each
invocation of the completion callback resolves exactly one pending
bridge, leaving its context reclaimed and no longer in flight. -/
theorem bridge_single_resolution (steps : List BridgeStep) (st : BridgeState)
    (h : runBridge initBridge steps = some st) :
    st.pending.Nodup ∧
    (st.resolved.map Prod.fst).Nodup ∧
    st.pending.Disjoint (st.resolved.map Prod.fst) ∧
    completeResolvesOnce st := by
  have hinv := runBridge_inv steps initBridge st initBridge_inv h
  obtain ⟨hnodup, hrnodup, hbound, hrbound, hdisj⟩ := hinv
  refine ⟨hnodup, hrnodup, hdisj, ?_⟩
  intro ctx ok st2 hstep
  simp only [bridgeStep] at hstep
  by_cases hmem : ctx ∈ st.pending
  · rw [if_pos hmem] at hstep
    simp only [Option.some.injEq] at hstep
    subst hstep
    constructor
    · simp
    · intro hmem2
      exact ((List.Nodup.mem_erase_iff hnodup).mp hmem2).1 rfl
  · rw [if_neg hmem] at hstep
    exact absurd hstep (by simp)

/-- Witness for C8: two accepted submissions followed by their two
completions, in reverse order, reach the state with contexts 1 and 0
resolved once each and nothing left in flight. -/
theorem bridge_single_resolution_witness :
    (BridgeState.mk 2 [] [(1, true), (0, false)]).pending.Nodup ∧
    ((BridgeState.mk 2 [] [(1, true), (0, false)]).resolved.map Prod.fst).Nodup ∧
    (BridgeState.mk 2 [] [(1, true), (0, false)]).pending.Disjoint
      ((BridgeState.mk 2 [] [(1, true), (0, false)]).resolved.map Prod.fst) ∧
    completeResolvesOnce (BridgeState.mk 2 [] [(1, true), (0, false)]) :=
  bridge_single_resolution
    [BridgeStep.submit, BridgeStep.submit,
     BridgeStep.complete 1 true, BridgeStep.complete 0 false]
    (BridgeState.mk 2 [] [(1, true), (0, false)]) (by decide)
